import Mathlib

/-! Verification development for the SYNTHIUM core: a shallow embedding of
`synthium_core/vectors.py`, `synthium_core/phenomena.py`,
`synthium_core/database.py`, `synthium_core/engine.py` and
`web_backend/validation.py`. Python floats are modelled as rationals (ℚ);
square roots (Euclidean distance and similarity) live in ℝ. -/

namespace Synthium

/-- Python `max(0.0, min(1.0, x))`, the clamp used in
`SynthiumVector.__post_init__`. -/
def clamp01 (x : ℚ) : ℚ := max 0 (min 1 x)

/-- Python `round` to the nearest integer with ties to even
(banker's rounding), as applied by `round(x, 3)` after scaling. -/
def roundHalfEven (q : ℚ) : ℤ :=
  if q - ⌊q⌋ < 1/2 then ⌊q⌋
  else if 1/2 < q - ⌊q⌋ then ⌊q⌋ + 1
  else if ⌊q⌋ % 2 = 0 then ⌊q⌋ else ⌊q⌋ + 1

/-- Python `round(q, 3)`: round to three decimal places, ties to even. -/
def pyRound3 (q : ℚ) : ℚ := (roundHalfEven (q * 1000) : ℚ) / 1000

/-- Python `str.lower`, restricted to the ASCII names appearing in this
repository: lowercases every character. -/
def pyLower (s : String) : String := ⟨s.data.map Char.toLower⟩

/-- The `SynthiumVector` dataclass of `vectors.py`: a point in 5-dimensional
space with fields velocity `v`, resistance `R`, resonance `r`, capacity `C`,
entropy `S`. -/
structure SynthiumVector where
  v : ℚ
  R : ℚ
  r : ℚ
  C : ℚ
  S : ℚ
deriving DecidableEq

/-- Constructing a `SynthiumVector` in Python runs `__post_init__`, which
clamps every field into [0, 1]. -/
def SynthiumVector.make (v R r C S : ℚ) : SynthiumVector :=
  ⟨clamp01 v, clamp01 R, clamp01 r, clamp01 C, clamp01 S⟩

/-- A five-key mapping of optional field values, the dictionary shape consumed
by `SynthiumVector.from_dict` (a key may be absent). -/
structure VectorDict where
  v : Option ℚ
  R : Option ℚ
  r : Option ℚ
  C : Option ℚ
  S : Option ℚ
deriving DecidableEq

/-- `SynthiumVector.to_dict`: each field rounded to three decimal places. -/
def SynthiumVector.to_dict (x : SynthiumVector) : VectorDict :=
  ⟨some (pyRound3 x.v), some (pyRound3 x.R), some (pyRound3 x.r),
   some (pyRound3 x.C), some (pyRound3 x.S)⟩

/-- `SynthiumVector.from_dict`: missing keys default to 0.5; the constructor
then clamps. -/
def SynthiumVector.from_dict (d : VectorDict) : SynthiumVector :=
  SynthiumVector.make (d.v.getD (1/2)) (d.R.getD (1/2)) (d.r.getD (1/2))
    (d.C.getD (1/2)) (d.S.getD (1/2))

/-- Squared Euclidean distance over the five dimensions (the quantity under
the square root in `SynthiumVector.distance_to`). -/
def SynthiumVector.distSq (a b : SynthiumVector) : ℚ :=
  (a.v - b.v)^2 + (a.R - b.R)^2 + (a.r - b.r)^2 + (a.C - b.C)^2 + (a.S - b.S)^2

/-- `SynthiumVector.distance_to`: Euclidean distance. -/
noncomputable def SynthiumVector.distance_to (a b : SynthiumVector) : ℝ :=
  Real.sqrt ((a.distSq b : ℚ) : ℝ)

/-- `SynthiumVector.similarity_to`: `1 - distance / sqrt(5)`. -/
noncomputable def SynthiumVector.similarity_to (a b : SynthiumVector) : ℝ :=
  1 - a.distance_to b / Real.sqrt 5

/-- All five fields lie in the closed interval [0, 1]. -/
def InUnitRange (x : SynthiumVector) : Prop :=
  (0 ≤ x.v ∧ x.v ≤ 1) ∧ (0 ≤ x.R ∧ x.R ≤ 1) ∧ (0 ≤ x.r ∧ x.r ≤ 1) ∧
    (0 ≤ x.C ∧ x.C ≤ 1) ∧ (0 ≤ x.S ∧ x.S ≤ 1)

lemma clamp01_eq_ite (x : ℚ) :
    clamp01 x = if x < 0 then 0 else if 1 < x then 1 else x := by
  unfold clamp01
  rcases lt_or_le x 0 with h1 | h1
  · rw [if_pos h1, min_eq_right (by linarith), max_eq_left (by linarith)]
  · rw [if_neg (not_lt.mpr h1)]
    rcases lt_or_le 1 x with h2 | h2
    · rw [if_pos h2, min_eq_left (by linarith), max_eq_right (by linarith)]
    · rw [if_neg (not_lt.mpr h2), min_eq_right h2, max_eq_right h1]

lemma clamp01_mem (x : ℚ) : 0 ≤ clamp01 x ∧ clamp01 x ≤ 1 := by
  rw [clamp01_eq_ite]
  split_ifs <;> constructor <;> linarith

lemma clamp01_of_mem {x : ℚ} (h0 : 0 ≤ x) (h1 : x ≤ 1) : clamp01 x = x := by
  rw [clamp01_eq_ite]
  split_ifs <;> linarith

lemma make_mem (a b c d e : ℚ) : InUnitRange (SynthiumVector.make a b c d e) :=
  ⟨clamp01_mem a, clamp01_mem b, clamp01_mem c, clamp01_mem d, clamp01_mem e⟩

/-- C1: every construction of a state vector — direct construction with
arbitrary rational inputs, or deserialization from a mapping where missing
fields default to 0.5 — leaves all five fields `v, R, r, C, S` in [0, 1];
out-of-range inputs are saturated to the nearest bound, never rejected. -/
theorem clamping_total (a b c d e : ℚ) (od : VectorDict) :
    InUnitRange (SynthiumVector.make a b c d e) ∧
    InUnitRange (SynthiumVector.from_dict od) ∧
    (SynthiumVector.make a b c d e).v = (if a < 0 then 0 else if 1 < a then 1 else a) ∧
    (SynthiumVector.make a b c d e).R = (if b < 0 then 0 else if 1 < b then 1 else b) ∧
    (SynthiumVector.make a b c d e).r = (if c < 0 then 0 else if 1 < c then 1 else c) ∧
    (SynthiumVector.make a b c d e).C = (if d < 0 then 0 else if 1 < d then 1 else d) ∧
    (SynthiumVector.make a b c d e).S = (if e < 0 then 0 else if 1 < e then 1 else e) ∧
    SynthiumVector.from_dict ⟨none, none, none, none, none⟩ =
      SynthiumVector.make (1/2) (1/2) (1/2) (1/2) (1/2) :=
  ⟨make_mem a b c d e, make_mem _ _ _ _ _,
   clamp01_eq_ite a, clamp01_eq_ite b, clamp01_eq_ite c, clamp01_eq_ite d,
   clamp01_eq_ite e, rfl⟩

/-- `SynthiumEngine.calculate_wellbeing`. -/
def calculate_wellbeing (x : SynthiumVector) : ℚ :=
  clamp01 (x.r * 0.3 + x.C * 0.3 + (1 - x.R) * 0.2 + (1 - x.S) * 0.2)

/-- `SynthiumEngine.determine_phase`: first-matching rule wins. -/
def determine_phase (x : SynthiumVector) : String :=
  if x.v < 0.2 ∧ x.R < 0.2 ∧ x.r > 0.8 then "dissolution"
  else if x.S < 0.3 ∧ x.C > 0.7 ∧ x.r > 0.7 then "transcendence"
  else if x.S < 0.5 ∧ x.C > 0.5 ∧ x.r > 0.5 then "integration"
  else "awakening"

/-- `SynthiumEngine.calculate_stability`. -/
def calculate_stability (x : SynthiumVector) : ℚ :=
  clamp01 ((1 - x.S) * 0.4 + x.C * 0.4 + (1 - x.R) * 0.2)

/-- C3: `determine_phase` returns exactly one label by first-matching rule in
fixed priority order (dissolution, then transcendence, then integration, with
awakening as the fallback), and the vector (v=0.1, R=0.0, r=0.9, C=0.9, S=0.0)
is classified "dissolution". -/
theorem determine_phase_first_match (x : SynthiumVector) :
    (determine_phase x = "dissolution" ↔ (x.v < 0.2 ∧ x.R < 0.2 ∧ x.r > 0.8)) ∧
    (determine_phase x = "transcendence" ↔
      (¬(x.v < 0.2 ∧ x.R < 0.2 ∧ x.r > 0.8) ∧ (x.S < 0.3 ∧ x.C > 0.7 ∧ x.r > 0.7))) ∧
    (determine_phase x = "integration" ↔
      (¬(x.v < 0.2 ∧ x.R < 0.2 ∧ x.r > 0.8) ∧ ¬(x.S < 0.3 ∧ x.C > 0.7 ∧ x.r > 0.7) ∧
        (x.S < 0.5 ∧ x.C > 0.5 ∧ x.r > 0.5))) ∧
    (determine_phase x = "awakening" ↔
      (¬(x.v < 0.2 ∧ x.R < 0.2 ∧ x.r > 0.8) ∧ ¬(x.S < 0.3 ∧ x.C > 0.7 ∧ x.r > 0.7) ∧
        ¬(x.S < 0.5 ∧ x.C > 0.5 ∧ x.r > 0.5))) ∧
    determine_phase (SynthiumVector.make 0.1 0.0 0.9 0.9 0.0) = "dissolution" := by
  refine ⟨?_, ?_, ?_, ?_, ?_⟩
  · unfold determine_phase; split_ifs <;> simp_all
  · unfold determine_phase; split_ifs <;> simp_all
  · unfold determine_phase; split_ifs <;> simp_all
  · unfold determine_phase; split_ifs <;> simp_all
  · norm_num [determine_phase, SynthiumVector.make, clamp01, min_def, max_def]

/-- C4: for vectors with fields in [0,1], `calculate_wellbeing` is the stated
weighted sum clamped to [0,1], `calculate_stability` is the stated weighted sum
clamped to [0,1], both always land in [0,1], and the given high-wellbeing
vector scores strictly above the given low-wellbeing vector. -/
theorem wellbeing_stability_bounds (x : SynthiumVector) (_hx : InUnitRange x) :
    calculate_wellbeing x =
      clamp01 (x.r * 0.3 + x.C * 0.3 + (1 - x.R) * 0.2 + (1 - x.S) * 0.2) ∧
    0 ≤ calculate_wellbeing x ∧ calculate_wellbeing x ≤ 1 ∧
    calculate_stability x =
      clamp01 ((1 - x.S) * 0.4 + x.C * 0.4 + (1 - x.R) * 0.2) ∧
    0 ≤ calculate_stability x ∧ calculate_stability x ≤ 1 ∧
    calculate_wellbeing (SynthiumVector.make 0.5 0.1 0.9 0.9 0.1) >
      calculate_wellbeing (SynthiumVector.make 0.9 0.9 0.1 0.1 0.9) :=
  ⟨rfl, (clamp01_mem _).1, (clamp01_mem _).2, rfl, (clamp01_mem _).1, (clamp01_mem _).2,
   by norm_num [calculate_wellbeing, SynthiumVector.make, clamp01, min_def, max_def]⟩

lemma distSq_self (a : SynthiumVector) : a.distSq a = 0 := by
  unfold SynthiumVector.distSq; ring

lemma distSq_comm (a b : SynthiumVector) : a.distSq b = b.distSq a := by
  unfold SynthiumVector.distSq; ring

lemma sub_sq_le_one {x y : ℚ} (hx0 : 0 ≤ x) (hx1 : x ≤ 1) (hy0 : 0 ≤ y) (hy1 : y ≤ 1) :
    (x - y)^2 ≤ 1 := by nlinarith

lemma distSq_le_five {a b : SynthiumVector} (ha : InUnitRange a) (hb : InUnitRange b) :
    a.distSq b ≤ 5 := by
  obtain ⟨⟨ha1, ha2⟩, ⟨ha3, ha4⟩, ⟨ha5, ha6⟩, ⟨ha7, ha8⟩, ha9, ha10⟩ := ha
  obtain ⟨⟨hb1, hb2⟩, ⟨hb3, hb4⟩, ⟨hb5, hb6⟩, ⟨hb7, hb8⟩, hb9, hb10⟩ := hb
  have h1 := sub_sq_le_one ha1 ha2 hb1 hb2
  have h2 := sub_sq_le_one ha3 ha4 hb3 hb4
  have h3 := sub_sq_le_one ha5 ha6 hb5 hb6
  have h4 := sub_sq_le_one ha7 ha8 hb7 hb8
  have h5 := sub_sq_le_one ha9 ha10 hb9 hb10
  unfold SynthiumVector.distSq
  linarith

lemma distance_to_self (a : SynthiumVector) : a.distance_to a = 0 := by
  unfold SynthiumVector.distance_to
  rw [distSq_self]
  simp

/-- C2: for vectors with all fields in [0,1], the distance is Euclidean with
`distance(v,v) = 0` and symmetry; similarity is `1 - distance/sqrt 5`, lies in
[0,1] with no clamping applied, and is exactly 1 on identical vectors. -/
theorem distance_similarity_spec (a b : SynthiumVector)
    (ha : InUnitRange a) (hb : InUnitRange b) :
    a.distance_to a = 0 ∧
    a.distance_to b = b.distance_to a ∧
    a.similarity_to b = 1 - a.distance_to b / Real.sqrt 5 ∧
    0 ≤ a.similarity_to b ∧ a.similarity_to b ≤ 1 ∧
    a.similarity_to a = 1 := by
  have hd0 : 0 ≤ a.distance_to b := Real.sqrt_nonneg _
  have h5 : (0:ℝ) < Real.sqrt 5 := Real.sqrt_pos.mpr (by norm_num)
  have hd5 : a.distance_to b ≤ Real.sqrt 5 := by
    unfold SynthiumVector.distance_to
    exact Real.sqrt_le_sqrt (by exact_mod_cast distSq_le_five ha hb)
  refine ⟨distance_to_self a, ?_, rfl, ?_, ?_, ?_⟩
  · unfold SynthiumVector.distance_to
    rw [distSq_comm]
  · have := (div_le_one h5).mpr hd5
    unfold SynthiumVector.similarity_to
    linarith
  · have := div_nonneg hd0 h5.le
    unfold SynthiumVector.similarity_to
    linarith
  · unfold SynthiumVector.similarity_to
    rw [distance_to_self a]
    norm_num

/-- C2 witness: the theorem applied at two concrete in-range vectors. -/
theorem distance_similarity_spec_witness :
    InUnitRange (SynthiumVector.make 0.7 0.2 0.8 0.9 0.1) ∧
    InUnitRange (SynthiumVector.make 0.0 0.0 0.0 0.0 0.0) ∧
    (SynthiumVector.make 0.7 0.2 0.8 0.9 0.1).similarity_to
      (SynthiumVector.make 0.7 0.2 0.8 0.9 0.1) = 1 :=
  ⟨make_mem _ _ _ _ _, make_mem _ _ _ _ _,
   (distance_similarity_spec _ (SynthiumVector.make 0.0 0.0 0.0 0.0 0.0)
     (make_mem 0.7 0.2 0.8 0.9 0.1) (make_mem 0.0 0.0 0.0 0.0 0.0)).2.2.2.2.2⟩

/-- C4 witness: the theorem applied at the concrete vector (0.5, 0.5, 0.5, 0.5, 0.5). -/
theorem wellbeing_stability_bounds_witness :
    InUnitRange (SynthiumVector.make 0.5 0.5 0.5 0.5 0.5) ∧
    0 ≤ calculate_wellbeing (SynthiumVector.make 0.5 0.5 0.5 0.5 0.5) ∧
    calculate_wellbeing (SynthiumVector.make 0.5 0.5 0.5 0.5 0.5) ≤ 1 :=
  ⟨make_mem _ _ _ _ _,
   (wellbeing_stability_bounds _ (make_mem 0.5 0.5 0.5 0.5 0.5)).2.1,
   (wellbeing_stability_bounds _ (make_mem 0.5 0.5 0.5 0.5 0.5)).2.2.1⟩

/-- The `Phenomenon` dataclass of `phenomena.py`. -/
structure Phenomenon where
  id : ℕ
  term : String
  description : String
  vector : SynthiumVector
  phase : String
  tags : List String
  related_to : List ℕ
deriving DecidableEq

/-- `Phenomenon.to_dict`: the persistence shape of one catalog entry. -/
structure PhenomenonDict where
  id : ℕ
  term : String
  description : String
  vector : VectorDict
  phase : String
  tags : List String
  related_to : List ℕ
deriving DecidableEq

def Phenomenon.to_dict (p : Phenomenon) : PhenomenonDict :=
  ⟨p.id, p.term, p.description, p.vector.to_dict, p.phase, p.tags, p.related_to⟩

/-- Entry reconstruction performed by `SynthiumDatabase.import_from_json`:
fields are read back verbatim, the vector through `SynthiumVector.from_dict`. -/
def phenomenonOfDict (d : PhenomenonDict) : Phenomenon :=
  ⟨d.id, d.term, d.description, SynthiumVector.from_dict d.vector, d.phase, d.tags, d.related_to⟩

/-- `CORE_PHENOMENA` from `phenomena.py`: the fixed built-in catalog, in
declaration order (which is also the id-keyed dictionary's iteration order,
since Python dictionaries preserve insertion order). -/
def CORE_PHENOMENA : List Phenomenon :=
  [⟨1, "Flow State", "Complete absorption in present activity, effortless action",
    SynthiumVector.make 0.7 0.2 0.8 0.9 0.1, "integration",
    ["peak_experience", "performance", "presence"], [15, 20]⟩,
   ⟨2, "Burnout", "Exhaustion from prolonged stress, depleted capacity",
    SynthiumVector.make 0.9 0.8 0.3 0.1 0.8, "awakening",
    ["crisis", "depletion", "stress"], [3, 6]⟩,
   ⟨3, "Depression", "Low energy, disconnection, loss of meaning",
    SynthiumVector.make 0.1 0.7 0.2 0.2 0.6, "awakening",
    ["mental_health", "low_energy", "disconnection"], [2, 7]⟩,
   ⟨4, "Anxiety", "High mental velocity, future-focused worry, chaos",
    SynthiumVector.make 0.8 0.6 0.4 0.5 0.8, "awakening",
    ["mental_health", "worry", "chaos"], [2, 11]⟩,
   ⟨5, "Inner Peace", "Deep calm, low resistance, present-centered awareness",
    SynthiumVector.make 0.3 0.1 0.7 0.8 0.1, "integration",
    ["peace", "meditation", "presence"], [1, 16]⟩,
   ⟨6, "Grief", "Processing loss, high resistance, low capacity",
    SynthiumVector.make 0.2 0.8 0.3 0.3 0.7, "awakening",
    ["emotion", "loss", "healing"], [3, 8]⟩,
   ⟨7, "Apathy", "Emotional numbness, disconnection, low velocity",
    SynthiumVector.make 0.1 0.5 0.1 0.3 0.5, "awakening",
    ["disconnection", "numbness"], [3, 6]⟩,
   ⟨8, "Anger", "High energy directed at resistance, friction",
    SynthiumVector.make 0.8 0.9 0.4 0.6 0.7, "awakening",
    ["emotion", "energy", "resistance"], [4, 6]⟩,
   ⟨9, "Joy", "High resonance, open flow, elevated energy",
    SynthiumVector.make 0.6 0.1 0.8 0.9 0.2, "integration",
    ["emotion", "positive", "connection"], [1, 5, 10]⟩,
   ⟨10, "Love", "Deep resonance, acceptance, connection",
    SynthiumVector.make 0.5 0.1 0.9 0.8 0.2, "integration",
    ["emotion", "connection", "transcendence"], [5, 9, 16]⟩,
   ⟨11, "Confusion", "High entropy, unclear direction, scattered energy",
    SynthiumVector.make 0.5 0.5 0.4 0.5 0.9, "awakening",
    ["chaos", "uncertainty"], [4, 12]⟩,
   ⟨12, "Clarity", "Low entropy, clear seeing, organized thought",
    SynthiumVector.make 0.4 0.2 0.6 0.8 0.1, "integration",
    ["insight", "order", "understanding"], [1, 5, 16]⟩,
   ⟨13, "Overwhelm", "Capacity exceeded, high chaos, system overload",
    SynthiumVector.make 0.7 0.7 0.3 0.2 0.9, "awakening",
    ["crisis", "chaos", "depletion"], [2, 4, 11]⟩,
   ⟨14, "Boredom", "Low velocity, disconnection, excess capacity",
    SynthiumVector.make 0.2 0.3 0.3 0.7 0.4, "awakening",
    ["low_energy", "disconnection"], [7, 15]⟩,
   ⟨15, "Curiosity", "Moderate velocity, openness, seeking resonance",
    SynthiumVector.make 0.6 0.3 0.6 0.7 0.3, "integration",
    ["exploration", "growth", "openness"], [1, 9, 12]⟩,
   ⟨16, "Presence", "Here-now awareness, low resistance, harmony",
    SynthiumVector.make 0.3 0.1 0.7 0.8 0.1, "transcendence",
    ["awareness", "meditation", "transcendence"], [5, 10, 12, 17]⟩,
   ⟨17, "Witness Consciousness", "Pure awareness, observing without attachment",
    SynthiumVector.make 0.1 0.0 0.8 0.9 0.0, "transcendence",
    ["awareness", "meditation", "transcendence", "mystical"], [16, 18, 19]⟩,
   ⟨18, "Sakshatakara", "Direct realization, dissolution of seeker",
    SynthiumVector.make 0.0 0.0 1.0 1.0 0.0, "dissolution",
    ["mystical", "enlightenment", "transcendence"], [17, 19, 20]⟩,
   ⟨19, "The Void", "Emptiness, no-self, pure potential",
    SynthiumVector.make 0.0 0.0 0.5 1.0 0.0, "dissolution",
    ["mystical", "emptiness", "transcendence"], [17, 18]⟩,
   ⟨20, "This", "The eternal present, only what is",
    SynthiumVector.make 0.0 0.0 1.0 1.0 0.0, "dissolution",
    ["mystical", "presence", "absolute"], [16, 17, 18]⟩]

/-- Phenomena payload of `SynthiumDatabase.export_to_json` (sans file I/O):
every catalog entry serialized through `Phenomenon.to_dict`. -/
def export_phenomena : List PhenomenonDict := CORE_PHENOMENA.map Phenomenon.to_dict

/-- Phenomena reconstruction of `SynthiumDatabase.import_from_json` (sans file
I/O): each serialized entry rebuilt via `phenomenonOfDict`; re-importing over
the freshly initialized database overwrites each id key with the imported
entry, and iteration order is unchanged, so the resulting catalog is exactly
this list. -/
def import_phenomena (ds : List PhenomenonDict) : List Phenomenon :=
  ds.map phenomenonOfDict

lemma round_clamp_id {x : ℚ} (h0 : 0 ≤ x) (h1 : x ≤ 1)
    (hn : ((⌊x * 1000⌋ : ℤ) : ℚ) = x * 1000) :
    clamp01 (pyRound3 x) = x := by
  have hr : pyRound3 x = x := by
    unfold pyRound3 roundHalfEven
    rw [show x * 1000 - ((⌊x * 1000⌋ : ℤ) : ℚ) = 0 by rw [hn]; ring]
    rw [if_pos (by norm_num : (0:ℚ) < 1/2)]
    rw [hn]
    ring
  rw [hr, clamp01_of_mem h0 h1]

lemma vec_roundtrip (x : SynthiumVector) (hx : InUnitRange x)
    (h1 : ((⌊x.v * 1000⌋ : ℤ) : ℚ) = x.v * 1000)
    (h2 : ((⌊x.R * 1000⌋ : ℤ) : ℚ) = x.R * 1000)
    (h3 : ((⌊x.r * 1000⌋ : ℤ) : ℚ) = x.r * 1000)
    (h4 : ((⌊x.C * 1000⌋ : ℤ) : ℚ) = x.C * 1000)
    (h5 : ((⌊x.S * 1000⌋ : ℤ) : ℚ) = x.S * 1000) :
    SynthiumVector.from_dict x.to_dict = x := by
  obtain ⟨⟨hv0, hv1⟩, ⟨hR0, hR1⟩, ⟨hr0, hr1⟩, ⟨hC0, hC1⟩, hS0, hS1⟩ := hx
  cases x with
  | mk xv xR xr xC xS =>
    unfold SynthiumVector.from_dict SynthiumVector.to_dict SynthiumVector.make
    simp only [Option.getD_some, SynthiumVector.mk.injEq]
    exact ⟨round_clamp_id hv0 hv1 h1, round_clamp_id hR0 hR1 h2, round_clamp_id hr0 hr1 h3,
           round_clamp_id hC0 hC1 h4, round_clamp_id hS0 hS1 h5⟩

lemma phen_roundtrip (p : Phenomenon) (hx : InUnitRange p.vector)
    (h1 : ((⌊p.vector.v * 1000⌋ : ℤ) : ℚ) = p.vector.v * 1000)
    (h2 : ((⌊p.vector.R * 1000⌋ : ℤ) : ℚ) = p.vector.R * 1000)
    (h3 : ((⌊p.vector.r * 1000⌋ : ℤ) : ℚ) = p.vector.r * 1000)
    (h4 : ((⌊p.vector.C * 1000⌋ : ℤ) : ℚ) = p.vector.C * 1000)
    (h5 : ((⌊p.vector.S * 1000⌋ : ℤ) : ℚ) = p.vector.S * 1000) :
    phenomenonOfDict p.to_dict = p := by
  cases p with
  | mk i t de ve ph tg re =>
    unfold phenomenonOfDict Phenomenon.to_dict
    congr 1
    exact vec_roundtrip ve hx h1 h2 h3 h4 h5

/-- C5: exporting the catalog to the persistence format and re-importing it
reproduces identical entries — same ids, terms, descriptions, vectors, phases,
tags and relations; serialize-then-deserialize is lossless for every listed
field of every catalog entry. -/
theorem export_import_roundtrip :
    import_phenomena export_phenomena = CORE_PHENOMENA := by
  unfold import_phenomena export_phenomena CORE_PHENOMENA
  simp only [List.map_cons, List.map_nil, List.cons.injEq, and_true]
  repeat' apply And.intro
  all_goals
    apply phen_roundtrip <;>
      norm_num [InUnitRange, SynthiumVector.make, clamp01, min_def, max_def]

/-- C10: the built-in catalog's stored phase labels are not all consistent
with the phase classifier: the entry "Flow State" stores phase "integration"
while `determine_phase` on its own vector returns "transcendence". -/
theorem catalog_phase_mismatch :
    ∃ p ∈ CORE_PHENOMENA, p.term = "Flow State" ∧
      p.vector = SynthiumVector.make 0.7 0.2 0.8 0.9 0.1 ∧
      p.phase = "integration" ∧ determine_phase p.vector = "transcendence" := by
  refine ⟨⟨1, "Flow State", "Complete absorption in present activity, effortless action",
    SynthiumVector.make 0.7 0.2 0.8 0.9 0.1, "integration",
    ["peak_experience", "performance", "presence"], [15, 20]⟩, ?_, rfl, rfl, rfl, ?_⟩
  · unfold CORE_PHENOMENA
    exact List.mem_cons_self _ _
  · norm_num [determine_phase, SynthiumVector.make, clamp01, min_def, max_def]

/-- `PREDEFINED_VECTORS` from `vectors.py`: the fixed table of named canonical
vectors, keys all lowercase. -/
def PREDEFINED_VECTORS : List (String × SynthiumVector) :=
  [("flow", SynthiumVector.make 0.7 0.2 0.8 0.9 0.1),
   ("burnout", SynthiumVector.make 0.9 0.8 0.3 0.1 0.8),
   ("depression", SynthiumVector.make 0.1 0.7 0.2 0.2 0.6),
   ("anxiety", SynthiumVector.make 0.8 0.6 0.4 0.5 0.8),
   ("peace", SynthiumVector.make 0.3 0.1 0.7 0.8 0.1),
   ("love", SynthiumVector.make 0.5 0.1 0.9 0.8 0.2),
   ("grief", SynthiumVector.make 0.2 0.8 0.3 0.3 0.7),
   ("joy", SynthiumVector.make 0.6 0.1 0.8 0.9 0.2),
   ("confusion", SynthiumVector.make 0.5 0.5 0.4 0.5 0.9),
   ("clarity", SynthiumVector.make 0.4 0.2 0.6 0.8 0.1)]

/-- Python `PREDEFINED_VECTORS.get(key)`: exact key lookup. -/
def predefined_lookup (key : String) : Option SynthiumVector :=
  (PREDEFINED_VECTORS.find? (fun p => p.1 == key)).map Prod.snd

/-- `SynthiumDatabase.get_phenomenon_by_term`: first catalog entry whose
display name matches case-insensitively, in catalog iteration order. -/
def get_phenomenon_by_term (term : String) : Option Phenomenon :=
  CORE_PHENOMENA.find? (fun p => pyLower p.term == pyLower term)

/-- `SynthiumDatabase.get_phenomenon`: lookup by integer id. -/
def get_phenomenon (pid : ℕ) : Option Phenomenon :=
  CORE_PHENOMENA.find? (fun p => p.id == pid)

/-- The five dimensions, in declaration order of the delta dictionary built by
`create_transformation_plan` (velocity, resistance, resonance, capacity,
entropy). -/
inductive Dim where
  | v : Dim
  | R : Dim
  | r : Dim
  | C : Dim
  | S : Dim
deriving DecidableEq

/-- Declaration position of a dimension in the delta dictionary. -/
def Dim.idx : Dim → ℕ
  | .v => 0
  | .R => 1
  | .r => 2
  | .C => 3
  | .S => 4

/-- Per-dimension signed delta, target minus current. -/
def deltaOf (c t : SynthiumVector) : Dim → ℚ
  | .v => t.v - c.v
  | .R => t.R - c.R
  | .r => t.r - c.r
  | .C => t.C - c.C
  | .S => t.S - c.S

/-- Items of the delta dictionary of `create_transformation_plan`, in
insertion order. -/
def deltaList (c t : SynthiumVector) : List (Dim × ℚ) :=
  [(.v, t.v - c.v), (.R, t.R - c.R), (.r, t.r - c.r), (.C, t.C - c.C), (.S, t.S - c.S)]

/-- The fixed 5×2 action table of `_create_step_for_dimension`
(dimension × {increase, decrease}). -/
def actionFor (d : Dim) (increase : Bool) : String :=
  match d, increase with
  | .v, true => "Engage in energizing activity, set deadlines, create momentum"
  | .v, false => "Practice slowing down, meditation, intentional pauses"
  | .R, true => "Engage with challenging material, face fears"
  | .R, false => "Release resistance through acceptance, breathwork, or somatic practices"
  | .r, true => "Connect with others, practice empathy, find your tribe"
  | .r, false => "Create boundaries, practice solitude, disconnect from draining relationships"
  | .C, true => "Rest, restore energy, eat well, sleep, reduce commitments"
  | .C, false => "Engage capacity through challenge and growth"
  | .S, true => "Embrace uncertainty, explore chaos, try new things"
  | .S, false => "Organize, clarify, create systems, write things down"

/-- One step record of a transformation plan. -/
structure Step where
  dimension : Dim
  change : ℚ
  action : String

/-- `_create_step_for_dimension`: direction is "increase" exactly when the
delta is positive; the change is reported rounded to three decimals. The
Python `None` branch for an unknown dimension key is unreachable, since `Dim`
enumerates exactly the five keys of the delta dictionary. -/
def create_step_for_dimension (d : Dim) (change : ℚ) : Step :=
  ⟨d, pyRound3 change, if 0 < change then actionFor d true else actionFor d false⟩

/-- Ordering used by `_generate_transformation_steps`: Python's stable sort of
the delta items by `abs(delta)` descending. A stable sort by a key coincides
with any sort by the lexicographic pair (key, original position), so ties are
broken by declaration position. -/
def stepRel (a b : Dim × ℚ) : Prop :=
  |b.2| < |a.2| ∨ (|a.2| = |b.2| ∧ a.1.idx ≤ b.1.idx)

instance : DecidableRel stepRel := fun a b => by unfold stepRel; infer_instance

instance : IsTotal (Dim × ℚ) stepRel := by
  constructor
  intro a b
  rcases lt_trichotomy (|a.2|) (|b.2|) with h | h | h
  · exact Or.inr (Or.inl h)
  · rcases Nat.le_total a.1.idx b.1.idx with hi | hi
    · exact Or.inl (Or.inr ⟨h, hi⟩)
    · exact Or.inr (Or.inr ⟨h.symm, hi⟩)
  · exact Or.inl (Or.inl h)

instance : IsTrans (Dim × ℚ) stepRel := by
  constructor
  intro a b c hab hbc
  rcases hab with hab | ⟨hab1, hab2⟩ <;> rcases hbc with hbc | ⟨hbc1, hbc2⟩
  · exact Or.inl (lt_trans hbc hab)
  · exact Or.inl (by rw [← hbc1]; exact hab)
  · exact Or.inl (by rw [hab1]; exact hbc)
  · exact Or.inr ⟨hab1.trans hbc1, hab2.trans hbc2⟩

/-- `_generate_transformation_steps`: sort all five delta items by descending
absolute delta (stably), drop those with absolute delta below 0.1, and build a
step for each survivor. -/
def generate_transformation_steps (c t : SynthiumVector) : List Step :=
  ((((deltaList c t).insertionSort stepRel).filter
      (fun p => decide ((0.1:ℚ) ≤ |p.2|))).map
    (fun p => create_step_for_dimension p.1 p.2))

/-- `_estimate_difficulty`: threshold the Euclidean distance into a fixed
difficulty bucket. -/
noncomputable def estimate_difficulty (d : ℝ) : String :=
  if d < 0.5 then "easy"
  else if d < 1.0 then "moderate"
  else if d < 1.5 then "challenging"
  else "profound"

/-- Python `round(x, 3)` on the real distance value. -/
noncomputable def roundHalfEvenR (x : ℝ) : ℤ :=
  if x - ⌊x⌋ < 1/2 then ⌊x⌋
  else if 1/2 < x - ⌊x⌋ then ⌊x⌋ + 1
  else if ⌊x⌋ % 2 = 0 then ⌊x⌋ else ⌊x⌋ + 1

noncomputable def pyRound3R (x : ℝ) : ℝ := (roundHalfEvenR (x * 1000) : ℝ) / 1000

/-- The payload returned by `create_transformation_plan` on success. -/
structure TransformationPlan where
  current_state : VectorDict
  target_state : VectorDict
  delta : List (Dim × ℚ)
  distance : ℝ
  estimated_difficulty : String
  steps : List Step

/-- Success path of `create_transformation_plan` once the target vector is
resolved: delta items and distance are reported rounded to three decimals;
the difficulty bucket is computed from the unrounded distance. -/
noncomputable def planFor (current tv : SynthiumVector) : TransformationPlan :=
  ⟨current.to_dict, tv.to_dict,
   (deltaList current tv).map (fun p => (p.1, pyRound3 p.2)),
   pyRound3R (current.distance_to tv),
   estimate_difficulty (current.distance_to tv),
   generate_transformation_steps current tv⟩

/-- Result of `create_transformation_plan`: either an error payload or a plan. -/
inductive PlanResult where
  | error (msg : String) : PlanResult
  | ok (plan : TransformationPlan) : PlanResult

def PlanResult.isError : PlanResult → Bool
  | .error _ => true
  | .ok _ => false

/-- `SynthiumEngine.create_transformation_plan`: resolve the target name first
against `PREDEFINED_VECTORS` (lowercased key), then against the catalog by
display name case-insensitively; otherwise return the error payload. -/
noncomputable def create_transformation_plan
    (current : SynthiumVector) (target_state : String) : PlanResult :=
  match predefined_lookup (pyLower target_state) with
  | some tv => .ok (planFor current tv)
  | none =>
    match get_phenomenon_by_term target_state with
    | some p => .ok (planFor current p.vector)
    | none => .error ("Unknown target state: " ++ target_state)

/-- C6: `create_transformation_plan` resolves the target name first against
the fixed table of named canonical vectors (case-lowered key), then against
the catalog by display name case-insensitively; whenever neither resolves it
returns the explicit "unknown target" error payload (and, being a total
function, never raises). -/
theorem transformation_plan_resolution (c : SynthiumVector) (t : String) :
    ((create_transformation_plan c t).isError = true ↔
      (predefined_lookup (pyLower t) = none ∧ get_phenomenon_by_term t = none)) ∧
    (predefined_lookup (pyLower t) = none → get_phenomenon_by_term t = none →
      create_transformation_plan c t = .error ("Unknown target state: " ++ t)) ∧
    (∀ tv, predefined_lookup (pyLower t) = some tv →
      create_transformation_plan c t = .ok (planFor c tv)) ∧
    (∀ p, predefined_lookup (pyLower t) = none → get_phenomenon_by_term t = some p →
      create_transformation_plan c t = .ok (planFor c p.vector)) := by
  rcases h1 : predefined_lookup (pyLower t) with _ | tv <;>
    rcases h2 : get_phenomenon_by_term t with _ | p <;>
      simp [create_transformation_plan, h1, h2, PlanResult.isError]

/-- C6 witness: a name resolving neither way yields the error payload. -/
theorem transformation_plan_resolution_witness :
    create_transformation_plan (SynthiumVector.make 0.5 0.5 0.5 0.5 0.5)
      ("No Such State") = .error ("Unknown target state: No Such State") :=
  (transformation_plan_resolution (SynthiumVector.make 0.5 0.5 0.5 0.5 0.5)
    ("No Such State")).2.1 rfl rfl

lemma deltaList_snd {c t : SynthiumVector} {p : Dim × ℚ} (hp : p ∈ deltaList c t) :
    p.2 = deltaOf c t p.1 := by
  simp only [deltaList, List.mem_cons, List.not_mem_nil, or_false] at hp
  rcases hp with h | h | h | h | h <;> subst h <;> rfl

lemma deltaOf_mem (c t : SynthiumVector) (d : Dim) : (d, deltaOf c t d) ∈ deltaList c t := by
  cases d <;> simp [deltaList, deltaOf]

lemma deltaList_dims_nodup (c t : SynthiumVector) :
    (deltaList c t).Pairwise (fun a b => a.1 ≠ b.1) := by
  simp [deltaList]

lemma Dim.idx_inj : ∀ d e : Dim, d.idx = e.idx → d = e := by
  intro d e h
  cases d <;> cases e <;> first | rfl | (exfalso; simp [Dim.idx] at h)

/-- C7: the step list of a transformation plan contains exactly the dimensions
whose absolute delta is at least 0.1, ordered by descending absolute delta
with ties in declaration order; every step carries the fixed action text for
its dimension keyed by the sign of its delta, and its rounded delta; and the
difficulty bucket thresholds the distance at 0.5, 1.0, 1.5 with exclusive
upper boundaries. -/
theorem transformation_steps_spec (c t : SynthiumVector) :
    (∀ d : Dim, (∃ s ∈ generate_transformation_steps c t, s.dimension = d) ↔
      (0.1:ℚ) ≤ |deltaOf c t d|) ∧
    (generate_transformation_steps c t).Pairwise (fun s1 s2 =>
      |deltaOf c t s2.dimension| < |deltaOf c t s1.dimension| ∨
        (|deltaOf c t s1.dimension| = |deltaOf c t s2.dimension| ∧
          s1.dimension.idx < s2.dimension.idx)) ∧
    (∀ s ∈ generate_transformation_steps c t,
      s.change = pyRound3 (deltaOf c t s.dimension) ∧
      s.action = (if 0 < deltaOf c t s.dimension then actionFor s.dimension true
        else actionFor s.dimension false)) ∧
    (∀ dist : ℝ,
      (estimate_difficulty dist = "easy" ↔ dist < 0.5) ∧
      (estimate_difficulty dist = "moderate" ↔ (0.5 ≤ dist ∧ dist < 1.0)) ∧
      (estimate_difficulty dist = "challenging" ↔ (1.0 ≤ dist ∧ dist < 1.5)) ∧
      (estimate_difficulty dist = "profound" ↔ 1.5 ≤ dist)) ∧
    (planFor c t).estimated_difficulty = estimate_difficulty (c.distance_to t) := by
  have hsorted : ((deltaList c t).insertionSort stepRel).Pairwise stepRel :=
    List.sorted_insertionSort stepRel (deltaList c t)
  have hperm : ((deltaList c t).insertionSort stepRel).Perm (deltaList c t) :=
    List.perm_insertionSort stepRel (deltaList c t)
  have hsnd : ∀ p ∈ (deltaList c t).insertionSort stepRel, p.2 = deltaOf c t p.1 :=
    fun p hp => deltaList_snd (hperm.subset hp)
  have hne : ((deltaList c t).insertionSort stepRel).Pairwise (fun a b => a.1 ≠ b.1) :=
    (hperm.pairwise_iff (fun h => Ne.symm h)).mpr (deltaList_dims_nodup c t)
  refine ⟨?_, ?_, ?_, ?_, rfl⟩
  · intro d
    constructor
    · rintro ⟨s, hs, rfl⟩
      obtain ⟨p, hpF, rfl⟩ := List.mem_map.mp hs
      have hp2 := hsnd p (List.mem_of_mem_filter hpF)
      have hcond := List.of_mem_filter hpF
      rw [decide_eq_true_eq] at hcond
      simpa [create_step_for_dimension, ← hp2] using hcond
    · intro h
      refine ⟨create_step_for_dimension d (deltaOf c t d), ?_, rfl⟩
      refine List.mem_map.mpr ⟨(d, deltaOf c t d), ?_, rfl⟩
      refine List.mem_filter.mpr ⟨?_, ?_⟩
      · exact hperm.mem_iff.mpr (deltaOf_mem c t d)
      · rw [decide_eq_true_eq]
        exact h
  · refine List.pairwise_map.mpr ?_
    refine ((hsorted.and hne).filter _).imp_of_mem ?_
    intro a b ha hb hr
    obtain ⟨hstep, hne2⟩ := hr
    have ha2 := hsnd a (List.mem_of_mem_filter ha)
    have hb2 := hsnd b (List.mem_of_mem_filter hb)
    simp only [create_step_for_dimension]
    rw [← ha2, ← hb2]
    rcases hstep with hlt | ⟨heq, hle⟩
    · exact Or.inl hlt
    · right
      refine ⟨heq, lt_of_le_of_ne hle ?_⟩
      intro hidx
      exact hne2 (Dim.idx_inj _ _ hidx)
  · intro s hs
    obtain ⟨p, hpF, rfl⟩ := List.mem_map.mp hs
    have hp2 := hsnd p (List.mem_of_mem_filter hpF)
    constructor <;> simp [create_step_for_dimension, hp2]
  · intro dist
    unfold estimate_difficulty
    split_ifs with h1 h2 h3 <;>
      refine ⟨?_, ?_, ?_, ?_⟩ <;> constructor <;> intro hh <;>
        first
          | rfl
          | linarith
          | (exfalso; rcases hh with ⟨hha, hhb⟩; linarith)
          | (exfalso; linarith)
          | (exact ⟨by linarith, by linarith⟩)
          | (simp at hh)

/-- C7 witness: in the burnout-to-peace plan, the capacity dimension (absolute
delta 0.7 ≥ 0.1) appears among the generated steps. -/
theorem transformation_steps_spec_witness :
    ∃ s ∈ generate_transformation_steps (SynthiumVector.make 0.9 0.8 0.3 0.1 0.8)
      (SynthiumVector.make 0.3 0.1 0.7 0.8 0.1), s.dimension = Dim.C := by
  refine ((transformation_steps_spec (SynthiumVector.make 0.9 0.8 0.3 0.1 0.8)
    (SynthiumVector.make 0.3 0.1 0.7 0.8 0.1)).1 Dim.C).mpr ?_
  have h : deltaOf (SynthiumVector.make 0.9 0.8 0.3 0.1 0.8)
      (SynthiumVector.make 0.3 0.1 0.7 0.8 0.1) Dim.C = 0.7 := by
    norm_num [deltaOf, SynthiumVector.make, clamp01, min_def, max_def]
  rw [h, abs_of_pos (by norm_num : (0:ℚ) < 0.7)]
  norm_num

/-- One empirical sample consumed by the validation harness: an optional
vector mapping, an optional phase label, an optional wellbeing score. -/
structure EmpiricalEntry where
  vector : Option VectorDict
  phase : Option String
  wellbeing : Option ℚ

/-- Return shape of `SynthiumValidator._calculate_correlations`. -/
structure Correlations where
  v : ℚ
  R : ℚ
  r : ℚ
  C : ℚ
  S : ℚ
  overall : ℚ

/-- The all-zero correlations payload returned on empty input. -/
def zeroCorrelations : Correlations := ⟨0, 0, 0, 0, 0, 0⟩

/-- `SynthiumValidator._calculate_correlations`: inverse-absolute-difference
of predicted fields against the mean empirical vector, each rounded to three
decimals; all zeros when the sample list, or the subset carrying vectors, is
empty. -/
def calculate_correlations (pred : SynthiumVector) (data : List EmpiricalEntry) :
    Correlations :=
  match data with
  | [] => zeroCorrelations
  | _ =>
    let empirical_vectors :=
      (data.filterMap (fun e => e.vector)).map SynthiumVector.from_dict
    if empirical_vectors.isEmpty then zeroCorrelations
    else
      let n : ℚ := empirical_vectors.length
      let avg_v := (empirical_vectors.map (fun x => x.v)).sum / n
      let avg_R := (empirical_vectors.map (fun x => x.R)).sum / n
      let avg_r := (empirical_vectors.map (fun x => x.r)).sum / n
      let avg_C := (empirical_vectors.map (fun x => x.C)).sum / n
      let avg_S := (empirical_vectors.map (fun x => x.S)).sum / n
      let corr_v := 1 / (1 + |pred.v - avg_v|)
      let corr_R := 1 / (1 + |pred.R - avg_R|)
      let corr_r := 1 / (1 + |pred.r - avg_r|)
      let corr_C := 1 / (1 + |pred.C - avg_C|)
      let corr_S := 1 / (1 + |pred.S - avg_S|)
      let overall := (corr_v + corr_R + corr_r + corr_C + corr_S) / 5
      ⟨pyRound3 corr_v, pyRound3 corr_R, pyRound3 corr_r, pyRound3 corr_C,
       pyRound3 corr_S, pyRound3 overall⟩

/-- `SynthiumValidator._calculate_phase_accuracy`: fraction of samples with a
phase label that matches the entry's phase; 0 on an empty sample list or when
no sample carries a phase label. -/
def calculate_phase_accuracy (phen : Phenomenon) (data : List EmpiricalEntry) : ℚ :=
  match data with
  | [] => 0
  | _ =>
    let labelled := data.filterMap (fun e => e.phase)
    if labelled.length = 0 then 0
    else ((labelled.filter (fun s => s == phen.phase)).length : ℚ) / (labelled.length : ℚ)

/-- `SynthiumValidator._calculate_wellbeing_correlation`: inverse-absolute
difference between predicted wellbeing and the mean of each sample's reported
or vector-derived wellbeing; 0 on empty input. -/
def calculate_wellbeing_correlation (pred : SynthiumVector)
    (data : List EmpiricalEntry) : ℚ :=
  match data with
  | [] => 0
  | _ =>
    let scores := data.filterMap (fun e =>
      match e.wellbeing with
      | some w => some w
      | none => e.vector.map (fun vd => calculate_wellbeing (SynthiumVector.from_dict vd)))
    if scores.isEmpty then 0
    else
      let avg := scores.sum / (scores.length : ℚ)
      1 / (1 + |calculate_wellbeing pred - avg|)

/-- `SynthiumValidator._evaluate_validation_result`: conjunction of the three
fixed thresholds from the phenomenon-validation protocol. -/
def evaluate_validation_result (corr : Correlations) (pa wc : ℚ) : Bool :=
  if 0.7 ≤ corr.overall ∧ 0.8 ≤ pa ∧ 0.6 ≤ wc then true else false

/-- The per-phenomenon record produced by `validate_phenomenon` (metrics
rounded to three decimals as in the Python result dictionary). -/
structure ValidationResult where
  phenomenon_id : ℕ
  phenomenon_name : String
  predicted_vector : VectorDict
  vector_correlation : ℚ
  phase_accuracy : ℚ
  wellbeing_correlation : ℚ
  validation_passed : Bool
  sample_size : ℕ

/-- Result of `SynthiumValidator.validate_phenomenon`: an error payload when
the id is absent, otherwise the metrics record. -/
inductive ValidateOutcome where
  | error (msg : String) : ValidateOutcome
  | ok (result : ValidationResult) : ValidateOutcome

/-- `SynthiumValidator.validate_phenomenon` (pure part: the printing and the
append to the results log are omitted); the predicted vector is the catalog
entry's own vector, via `estimate_phenomenon_vector`. -/
def validate_phenomenon (pid : ℕ) (data : List EmpiricalEntry) : ValidateOutcome :=
  match get_phenomenon pid with
  | none => .error ("Phenomenon " ++ toString pid ++ " not found")
  | some phen =>
    let predicted := phen.vector
    let corr := calculate_correlations predicted data
    let pa := calculate_phase_accuracy phen data
    let wc := calculate_wellbeing_correlation predicted data
    .ok ⟨pid, phen.term, predicted.to_dict, pyRound3 corr.overall, pyRound3 pa,
         pyRound3 wc, evaluate_validation_result corr pa wc, data.length⟩

/-- C8: for every id present in the catalog, validating against an empty
sample list returns all metrics equal to 0 and `validation_passed = false`:
the empty input is a failing result, not a fault or a skip. -/
theorem validate_empty_samples (pid : ℕ) (p : Phenomenon)
    (hp : get_phenomenon pid = some p) :
    validate_phenomenon pid [] =
      .ok ⟨pid, p.term, p.vector.to_dict, 0, 0, 0, false, 0⟩ := by
  unfold validate_phenomenon
  rw [hp]
  have hz : pyRound3 0 = 0 := by norm_num [pyRound3, roundHalfEven]
  have hfalse : evaluate_validation_result ⟨0, 0, 0, 0, 0, 0⟩ 0 0 = false := by
    unfold evaluate_validation_result
    rw [if_neg]
    norm_num
  simp [calculate_correlations, calculate_phase_accuracy,
        calculate_wellbeing_correlation, zeroCorrelations, hz, hfalse]

/-- C8 witness: validating catalog entry 1 ("Flow State") against an empty
sample list. -/
theorem validate_empty_samples_witness :
    validate_phenomenon 1 [] =
      .ok ⟨1, "Flow State", (SynthiumVector.make 0.7 0.2 0.8 0.9 0.1).to_dict,
           0, 0, 0, false, 0⟩ :=
  validate_empty_samples 1
    ⟨1, "Flow State", "Complete absorption in present activity, effortless action",
     SynthiumVector.make 0.7 0.2 0.8 0.9 0.1, "integration",
     ["peak_experience", "performance", "presence"], [15, 20]⟩ rfl

/-- The first catalog entry, "Flow State". -/
def flowPhenomenon : Phenomenon :=
  ⟨1, "Flow State", "Complete absorption in present activity, effortless action",
   SynthiumVector.make 0.7 0.2 0.8 0.9 0.1, "integration",
   ["peak_experience", "performance", "presence"], [15, 20]⟩

/-- Ordering used by `find_similar_phenomena`: Python stably sorts the
(phenomenon, similarity) pairs by float similarity descending. Since
similarity `1 - sqrt(d²)/sqrt 5` is strictly decreasing in the squared
distance d², that order coincides with ascending squared distance; and a
stable sort by a key coincides with any sort by the lexicographic pair
(key, original position), so ties are broken by catalog position. -/
def rankRel (q : SynthiumVector) (a b : ℕ × Phenomenon) : Prop :=
  q.distSq a.2.vector < q.distSq b.2.vector ∨
    (q.distSq a.2.vector = q.distSq b.2.vector ∧ a.1 ≤ b.1)

instance (q : SynthiumVector) : DecidableRel (rankRel q) := fun a b => by
  unfold rankRel; infer_instance

instance (q : SynthiumVector) : IsTotal (ℕ × Phenomenon) (rankRel q) := by
  constructor
  intro a b
  rcases lt_trichotomy (q.distSq a.2.vector) (q.distSq b.2.vector) with h | h | h
  · exact Or.inl (Or.inl h)
  · rcases Nat.le_total a.1 b.1 with hi | hi
    · exact Or.inl (Or.inr ⟨h, hi⟩)
    · exact Or.inr (Or.inr ⟨h.symm, hi⟩)
  · exact Or.inr (Or.inl h)

instance (q : SynthiumVector) : IsTrans (ℕ × Phenomenon) (rankRel q) := by
  constructor
  intro a b c hab hbc
  rcases hab with hab | ⟨hab1, hab2⟩ <;> rcases hbc with hbc | ⟨hbc1, hbc2⟩
  · exact Or.inl (lt_trans hab hbc)
  · exact Or.inl (by rw [← hbc1]; exact hab)
  · exact Or.inl (by rw [hab1]; exact hbc)
  · exact Or.inr ⟨hab1.trans hbc1, hab2.trans hbc2⟩

/-- The full similarity ranking of the catalog for a query vector: catalog
entries tagged with their iteration position, sorted by `rankRel`. -/
def rankAll (q : SynthiumVector) : List (ℕ × Phenomenon) :=
  CORE_PHENOMENA.enum.insertionSort (rankRel q)

/-- `SynthiumDatabase.find_similar_phenomena`: the ranked (entry, similarity)
pairs, truncated to `limit`. -/
noncomputable def find_similar_phenomena (q : SynthiumVector) (limit : ℕ) :
    List (Phenomenon × ℝ) :=
  ((rankAll q).take limit).map (fun p => (p.2, q.similarity_to p.2.vector))

/-- The Python signature defaults `limit` to 5. -/
noncomputable def find_similar_phenomena_default (q : SynthiumVector) :
    List (Phenomenon × ℝ) :=
  find_similar_phenomena q 5

lemma distSq_nonneg (a b : SynthiumVector) : 0 ≤ a.distSq b := by
  unfold SynthiumVector.distSq
  positivity

lemma similarity_congr (q : SynthiumVector) {a b : SynthiumVector}
    (h : q.distSq a = q.distSq b) : q.similarity_to a = q.similarity_to b := by
  unfold SynthiumVector.similarity_to SynthiumVector.distance_to
  rw [h]

lemma similarity_strict_anti (q : SynthiumVector) {a b : SynthiumVector}
    (h : q.distSq a < q.distSq b) : q.similarity_to b < q.similarity_to a := by
  unfold SynthiumVector.similarity_to SynthiumVector.distance_to
  have h5 : (0:ℝ) < Real.sqrt 5 := Real.sqrt_pos.mpr (by norm_num)
  have hs : Real.sqrt ((q.distSq a : ℚ) : ℝ) < Real.sqrt ((q.distSq b : ℚ) : ℝ) :=
    Real.sqrt_lt_sqrt (by exact_mod_cast distSq_nonneg q a) (by exact_mod_cast h)
  have hd := div_lt_div_of_pos_right hs h5
  linarith

lemma similarity_to_self (a : SynthiumVector) : a.similarity_to a = 1 := by
  unfold SynthiumVector.similarity_to
  rw [distance_to_self]
  simp

lemma head?_take {α : Type} {n : ℕ} (hn : 0 < n) (l : List α) :
    (l.take n).head? = l.head? := by
  cases l <;> cases n <;> simp_all

lemma rankAll_flow_head :
    (rankAll (SynthiumVector.make 0.7 0.2 0.8 0.9 0.1)).head? =
      some (0, flowPhenomenon) := by
  have hperm :=
    List.perm_insertionSort (rankRel (SynthiumVector.make 0.7 0.2 0.8 0.9 0.1))
      CORE_PHENOMENA.enum
  have hsorted :=
    List.sorted_insertionSort (rankRel (SynthiumVector.make 0.7 0.2 0.8 0.9 0.1))
      CORE_PHENOMENA.enum
  have hmem : ((0 : ℕ), flowPhenomenon) ∈
      rankAll (SynthiumVector.make 0.7 0.2 0.8 0.9 0.1) :=
    hperm.mem_iff.mpr (List.mem_enum_iff_getElem?.mpr rfl)
  rcases hrk : rankAll (SynthiumVector.make 0.7 0.2 0.8 0.9 0.1) with _ | ⟨h0, tl⟩
  · rw [hrk] at hmem
    exact absurd hmem (List.not_mem_nil _)
  · rw [hrk] at hmem
    have hsorted2 : (h0 :: tl).Pairwise
        (rankRel (SynthiumVector.make 0.7 0.2 0.8 0.9 0.1)) := by
      rw [← hrk]
      exact hsorted
    simp only [List.head?_cons, Option.some.injEq]
    rcases List.mem_cons.mp hmem with he | htl
    · exact he.symm
    · have hrel := (List.pairwise_cons.mp hsorted2).1 _ htl
      have h0in : h0 ∈ rankAll (SynthiumVector.make 0.7 0.2 0.8 0.9 0.1) := by
        rw [hrk]
        exact List.mem_cons_self h0 tl
      have h0mem : h0 ∈ CORE_PHENOMENA.enum := hperm.subset h0in
      rcases hrel with hlt | ⟨_, hle⟩
      · exfalso
        have hz : (SynthiumVector.make 0.7 0.2 0.8 0.9 0.1).distSq
            flowPhenomenon.vector = 0 := distSq_self _
        have hnn := distSq_nonneg (SynthiumVector.make 0.7 0.2 0.8 0.9 0.1) h0.2.vector
        rw [hz] at hlt
        linarith
      · have h01 : h0.1 = 0 := Nat.le_zero.mp hle
        have hget := List.mem_enum_iff_getElem?.mp h0mem
        rw [h01] at hget
        have hflow : CORE_PHENOMENA[(0:ℕ)]? = some flowPhenomenon := rfl
        rw [hflow] at hget
        obtain ⟨i, ent⟩ := h0
        simp only at h01 hget
        rw [h01]
        injection hget with hent
        rw [hent]

/-- C9: `find_similar_phenomena` returns (entry, similarity) pairs sorted by
similarity descending, truncated to `limit` (which the Python signature
defaults to 5), with equal-similarity entries kept in catalog iteration
order; querying with the catalog's own "Flow State" vector puts "Flow State"
first with self-similarity exactly 1. -/
theorem find_similar_ranking (q : SynthiumVector) (limit : ℕ) :
    (find_similar_phenomena q limit).Pairwise (fun x y => y.2 ≤ x.2) ∧
    ((rankAll q).take limit).Pairwise (fun a b =>
      q.similarity_to b.2.vector < q.similarity_to a.2.vector ∨
        (q.similarity_to a.2.vector = q.similarity_to b.2.vector ∧ a.1 < b.1)) ∧
    (find_similar_phenomena q limit).length = min limit CORE_PHENOMENA.length ∧
    find_similar_phenomena_default q = find_similar_phenomena q 5 ∧
    (find_similar_phenomena (SynthiumVector.make 0.7 0.2 0.8 0.9 0.1) 5).head? =
      some (flowPhenomenon, 1) := by
  have hsorted := List.sorted_insertionSort (rankRel q) CORE_PHENOMENA.enum
  have hperm := List.perm_insertionSort (rankRel q) CORE_PHENOMENA.enum
  have henum_ne : CORE_PHENOMENA.enum.Pairwise (fun a b => a.1 ≠ b.1) :=
    List.pairwise_map.mp (List.nodup_enum_map_fst _)
  have hne : (rankAll q).Pairwise (fun a b => a.1 ≠ b.1) :=
    (hperm.pairwise_iff (fun h => Ne.symm h)).mpr henum_ne
  have hB : ((rankAll q).take limit).Pairwise (fun a b =>
      q.similarity_to b.2.vector < q.similarity_to a.2.vector ∨
        (q.similarity_to a.2.vector = q.similarity_to b.2.vector ∧ a.1 < b.1)) := by
    have hcomb := hsorted.and hne
    have htake := List.Pairwise.sublist (List.take_sublist limit _) hcomb
    refine htake.imp ?_
    rintro a b ⟨hr, hne2⟩
    rcases hr with hlt | ⟨heq, hle⟩
    · exact Or.inl (similarity_strict_anti q hlt)
    · exact Or.inr ⟨similarity_congr q heq, lt_of_le_of_ne hle hne2⟩
  refine ⟨?_, hB, ?_, rfl, ?_⟩
  · refine List.pairwise_map.mpr (hB.imp ?_)
    rintro a b (hlt | ⟨heq, _⟩)
    · exact le_of_lt hlt
    · exact le_of_eq heq.symm
  · have hlen : (rankAll q).length = CORE_PHENOMENA.length := by
      rw [show (rankAll q).length = CORE_PHENOMENA.enum.length from hperm.length_eq,
        List.enum_length]
    simp [find_similar_phenomena, List.length_take, hlen]
  · unfold find_similar_phenomena
    rw [List.head?_map, head?_take (by norm_num) _, rankAll_flow_head]
    show some (flowPhenomenon, (SynthiumVector.make 0.7 0.2 0.8 0.9 0.1).similarity_to
      flowPhenomenon.vector) = some (flowPhenomenon, 1)
    rw [show (SynthiumVector.make 0.7 0.2 0.8 0.9 0.1).similarity_to
      flowPhenomenon.vector = 1 from similarity_to_self _]

end Synthium
